import Mathlib

/--
Verification development for the EU bond scraping repository.

The repository scrapes bond data from Borsa Italiana pages, aggregates
per-ISIN records into a table, assigns a volume-percentile rating and
filters the result.  This file gives a shallow embedding of the relevant
functions:

  * `Scraping` models `src/scraping.py` (extract_value_after_keyword,
    fetch_data, compute_avg_monthly_volume, extract_single_ISIN,
    extract_multiple_ISIN);
  * `Analysis` models `src/analysis.py` (compute_ratings_volume_new,
    filter_df, improve_data);
  * `WebScraping` models `web_scraping.py` (the older module with a
    sequential and a thread-pool batch driver).

Strings are `List Char`; Python floats are `ℚ` (NaN is `Option.none`);
dates are day numbers `ℤ`.  Network traffic is abstracted into oracle
values (`FetchOutcome`, `PageResponse`) or oracle functions passed as
parameters; a Python exception is `Except.error` with a `PyError` tag.
-/
inductive PyError where
  | typeError : PyError
  | nameError : PyError
  | valueError : PyError
  | keyError : PyError
  | indexError : PyError
deriving DecidableEq, Repr

/-- Round to the nearest integer, ties to even: the rounding used by
Python's builtin `round` (and numpy) on the values the scraper rounds. -/
def round_half_even (x : ℚ) : ℤ :=
  let f := ⌊x⌋
  let r := x - (f : ℚ)
  if r < 1/2 then f
  else if 1/2 < r then f + 1
  else if f % 2 = 0 then f else f + 1

/-- Python `round(x, 2)` on the (ideal decimal) value. -/
def round2 (x : ℚ) : ℚ := ((round_half_even (100 * x) : ℤ) : ℚ) / 100

/-- Ascending sort of rationals (the order numpy and pandas sort values in). -/
def sortAsc (xs : List ℚ) : List ℚ := List.insertionSort (fun a b : ℚ => a ≤ b) xs

/-- Median of a pandas Series: `None` (NaN) on an empty series, the middle
element for odd length, the midpoint of the two middle elements for even. -/
def pd_median (xs : List ℚ) : Option ℚ :=
  let s := sortAsc xs
  let n := s.length
  if n = 0 then none
  else if n % 2 = 1 then some (s.getD (n / 2) 0)
  else some ((s.getD (n / 2 - 1) 0 + s.getD (n / 2) 0) / 2)

/-- Min of a pandas Series, NaN (`none`) on an empty series. -/
def pd_min (xs : List ℚ) : Option ℚ :=
  match xs with
  | [] => none
  | a :: l => some (l.foldl min a)

/-- Max of a pandas Series, NaN (`none`) on an empty series. -/
def pd_max (xs : List ℚ) : Option ℚ :=
  match xs with
  | [] => none
  | a :: l => some (l.foldl max a)

/-- Value of `np.percentile(xs, q)` (linear interpolation, the default) for an
integer percentile `q`, as used with `np.arange(1, 100, 1)`.  The position is
`q * (n - 1) / 100`; since `q` is a natural number the floor and fractional
part are computed with natural division.  Only meaningful for `xs ≠ []`: the
callers guard for that (numpy raises on an empty array, which the callers
model as `Option.none`). -/
def np_percentile (xs : List ℚ) (q : ℕ) : ℚ :=
  let s := sortAsc xs
  let n := s.length
  let lo := q * (n - 1) / 100
  let frac : ℚ := ((q * (n - 1)) % 100 : ℕ) / 100
  let a := s.getD lo 0
  let b := s.getD (lo + 1) a
  a + frac * (b - a)

/-- Value of `np.digitize(x, bins, right=True)` for sorted `bins`: numpy
computes `np.searchsorted(bins, x, side=left)`, the number of bins strictly
below `x` (a value exactly on a breakpoint falls into the lower bucket). -/
def np_digitize_right (x : ℚ) (bins : List ℚ) : ℕ :=
  bins.countP (fun b => decide (b < x))

/-- The percentile breakpoints `np.percentile(vals, np.arange(1, 100, 1))`:
the 1st through 99th percentiles, 99 values. -/
def batch_quantiles (vals : List ℚ) : List ℚ :=
  (List.range 99).map (fun k => np_percentile vals (k + 1))

/-- Python whitespace for `str.strip`. -/
def is_py_space (c : Char) : Bool :=
  c = ' ' || c = '\t' || c = '\n' || c = '\r'

/-- Python `str.strip()`. -/
def py_strip (l : List Char) : List Char :=
  ((l.dropWhile is_py_space).reverse.dropWhile is_py_space).reverse

/-- Whether `pat` occurs in `text` starting at index `i`. -/
def occurs_at (text pat : List Char) (i : ℕ) : Bool :=
  pat.isPrefixOf (text.drop i)

/-- Python `text.find(pat, start)`: the least index `≥ start` where `pat`
occurs, as an `Option` (`none` stands for Python's `-1`). -/
def py_find (text pat : List Char) (start : ℕ) : Option ℕ :=
  (List.range (text.length + 1)).find? (fun i => decide (start ≤ i) && occurs_at text pat i)

/-- Python slice `l[a:b]` with `a : ℕ` and a stop bound that may be negative
(Python counts a negative stop from the end; the scraper hits this with the
`-1` a failed `find` returns). -/
def py_slice (l : List Char) (a : ℕ) (b : ℤ) : List Char :=
  let stop : ℕ := if b < 0 then ((l.length : ℤ) + b).toNat else b.toNat
  (l.take stop).drop a

/-- Python `value.replace(c, rep)` for a single-character pattern: every
occurrence of `c` is replaced by `rep`. -/
def py_replace_char (l : List Char) (c : Char) (rep : List Char) : List Char :=
  l.foldr (fun x acc => (if x = c then rep else [x]) ++ acc) []

/-- Locale normalization performed on every extracted field value in
`extract_single_ISIN`: `value.replace(".", "").replace(",", ".")` — drop the
thousands dots, then turn the decimal comma into a decimal point. -/
def normalize_number (value : List Char) : List Char :=
  py_replace_char (py_replace_char value '.' []) ',' ['.']

/-- One decimal digit. -/
def digit_val (c : Char) : Option ℕ :=
  if '0' ≤ c ∧ c ≤ '9' then some (c.toNat - '0'.toNat) else none

/-- All-digit string to a natural number; `none` when empty or non-digit. -/
def parse_digits : List Char → Option ℕ
  | [] => none
  | l =>
    l.foldl
      (fun acc c =>
        match acc, digit_val c with
        | some a, some d => some (10 * a + d)
        | _, _ => none)
      (some 0)

/-- All-digit string to a natural number, where the empty string counts as 0
(for the integer or fractional side of a decimal point, as in `".5"`/`"5."`). -/
def parse_digits_or_empty : List Char → Option ℕ
  | [] => some 0
  | l => parse_digits l

/-- Python `float(s)` on the decimal strings the scraper produces: optional
sign, digits with an optional decimal point (at least one digit overall).
Exponents and `inf`/`nan` spellings are not produced by the pipeline and are
not modelled. `none` models `float` raising `ValueError`. -/
def py_float (s : List Char) : Option ℚ :=
  let t := py_strip s
  let signed : ℤ × List Char :=
    match t with
    | '-' :: r => (-1, r)
    | '+' :: r => (1, r)
    | r => (1, r)
  let sign := signed.1
  let body := signed.2
  match body.splitOn '.' with
  | [ip] => (parse_digits ip).map (fun n => (sign * n : ℤ))
  | [ip, fp] =>
    if ip = [] && fp = [] then none
    else
      match parse_digits_or_empty ip, parse_digits_or_empty fp with
      | some i, some f =>
        some ((sign : ℚ) * ((i : ℚ) + (f : ℚ) / ((10 : ℚ) ^ fp.length)))
      | _, _ => none
  | _ => none

/-- One row of the aggregated numeric table (index `isin`, one column per
extracted or derived field; `none` is a NaN cell).  The `ratings` field is
`none` until `compute_ratings_volume_new` creates the ratings column. -/
structure Row where
  isin : List Char
  numero_contratti : Option ℚ
  volume_ultimo : Option ℚ
  volume_totale : Option ℚ
  prezzo_ufficiale : Option ℚ
  rendimento_netto : Option ℚ
  rendimento_lordo : Option ℚ
  duration_modificata : Option ℚ
  tasso_cedola : Option ℚ
  scadenza : Option ℤ
  anni_scadenza : Option ℚ
  median_monthly_volume_million : Option ℚ
  min_monthly_volume_million : Option ℚ
  max_monthly_volume_million : Option ℚ
  ratings : Option ℚ
deriving DecidableEq, Repr

/-- One row as `extract_single_ISIN` returns it, before `extract_multiple_ISIN`
coerces the scraped columns with `astype(float)`: the keyword fields still hold
the normalized strings scraped from the page (`none` is NaN), `scadenza` is the
parsed maturity date, and the derived numeric fields are already numbers. -/
structure RawRow where
  isin : List Char
  numero_contratti : Option (List Char)
  volume_ultimo : Option (List Char)
  volume_totale : Option (List Char)
  prezzo_ufficiale : Option (List Char)
  rendimento_netto : Option (List Char)
  rendimento_lordo : Option (List Char)
  duration_modificata : Option (List Char)
  tasso_cedola : Option (List Char)
  scadenza : Option ℤ
  anni_scadenza : Option ℚ
  median_monthly_volume_million : Option ℚ
  min_monthly_volume_million : Option ℚ
  max_monthly_volume_million : Option ℚ
deriving DecidableEq, Repr

/-- The numeric columns a caller can pass as `sort_by` to `sort_values` /
`filter_df`. -/
inductive SortColumn where
  | numero_contratti : SortColumn
  | volume_ultimo : SortColumn
  | volume_totale : SortColumn
  | prezzo_ufficiale : SortColumn
  | rendimento_lordo : SortColumn
  | anni_scadenza : SortColumn
  | median_monthly_volume_million : SortColumn
  | ratings_column : SortColumn
deriving DecidableEq, Repr

/-- Column lookup for sorting. -/
def get_column (r : Row) : SortColumn → Option ℚ
  | SortColumn.numero_contratti => r.numero_contratti
  | SortColumn.volume_ultimo => r.volume_ultimo
  | SortColumn.volume_totale => r.volume_totale
  | SortColumn.prezzo_ufficiale => r.prezzo_ufficiale
  | SortColumn.rendimento_lordo => r.rendimento_lordo
  | SortColumn.anni_scadenza => r.anni_scadenza
  | SortColumn.median_monthly_volume_million => r.median_monthly_volume_million
  | SortColumn.ratings_column => r.ratings

/-- Ordering used by `sort_values(col, ascending=False)` on a column with
possible NaNs: descending on values, NaN (`none`) last (`na_position="last"`,
the pandas default). `key_le u v` says a cell `u` may come at or before `v`. -/
def key_le : Option ℚ → Option ℚ → Bool
  | none, none => true
  | none, some _ => false
  | some _, none => true
  | some x, some y => decide (y ≤ x)

/-- Row ordering induced by `sort_values(s, ascending=False)`. -/
def sort_rel (s : SortColumn) : Row → Row → Prop :=
  fun a b => key_le (get_column a s) (get_column b s) = true

instance sort_rel_decidable (s : SortColumn) : DecidableRel (sort_rel s) :=
  fun a b => inferInstanceAs (Decidable (key_le (get_column a s) (get_column b s) = true))

/-- One admissible implementation of `df.sort_values(s, ascending=False)`: a
deterministic stable comparison sort of the rows under `sort_rel s`.  This is
a representative, not the whole story: pandas' default sort kind is numpy's
quicksort (introsort), which is documented as not stable, so the order of
rows with equal sort keys is implementation-defined — `sort_values_ok` below
captures exactly what `sort_values` does guarantee. -/
def sort_rows (s : SortColumn) (l : List Row) : List Row :=
  List.insertionSort (sort_rel s) l

/-- The contract `df.sort_values(s, ascending=False)` actually guarantees of
its result (for any sort kind): a permutation of the input rows, sorted
descending with NaN keys last.  Tie order is NOT part of the contract — the
default numpy quicksort is unstable — so a faithful model of `sort_values`
is any `sorter` satisfying this predicate. -/
def sort_values_ok (sorter : SortColumn → List Row → List Row) : Prop :=
  ∀ (s : SortColumn) (l : List Row),
    (sorter s l).Perm l ∧ List.Sorted (sort_rel s) (sorter s l)

/-- An admissible `sort_values` implementation that, on a two-row table whose
sort keys tie, emits the rows in the opposite order (as an unstable
partition-exchange sort may); elsewhere it behaves like `sort_rows`. -/
def tie_swap_sort (s : SortColumn) (l : List Row) : List Row :=
  match l with
  | [a, b] =>
    if key_le (get_column a s) (get_column b s) && key_le (get_column b s) (get_column a s)
    then [b, a]
    else sort_rows s l
  | _ => sort_rows s l

/-- Comparison with a NaN is false in pandas: `none ≤ b` does not hold. -/
def cmp_le (x : Option ℚ) (b : ℚ) : Bool :=
  match x with
  | none => false
  | some v => decide (v ≤ b)

/-- Comparison with a NaN is false in pandas: `none ≥ b` does not hold. -/
def cmp_ge (x : Option ℚ) (b : ℚ) : Bool :=
  match x with
  | none => false
  | some v => decide (b ≤ v)

/-- Model of `isin.startswith(p)` on the index strings. -/
def starts_with (s p : List Char) : Bool := p.isPrefixOf s

/-- Whether an `Except` carries a value (a Python call that did not raise). -/
def except_succeeded {ε α : Type} : Except ε α → Bool
  | Except.ok _ => true
  | Except.error _ => false

/-- The value of an `Except` that did not raise. -/
def except_value {ε α : Type} : Except ε α → Option α
  | Except.ok a => some a
  | Except.error _ => none

/-- All-or-nothing map over a list (the effect of converting every scraped
column with `astype(float)`: one unparseable cell fails the whole table). -/
def map_option {α β : Type} (f : α → Option β) : List α → Option (List β)
  | [] => some []
  | a :: l =>
    match f a with
    | none => none
    | some b => (map_option f l).map (fun bs => b :: bs)

namespace Scraping

/-- The span tag `extract_value_after_keyword` scans for. -/
def span_open_tag : List Char := "<span class=\"t-text -right\">".data

/-- The closing span tag. -/
def span_close_tag : List Char := "</span>".data

/--
Model of `extract_value_after_keyword(keyword, html_text)` in
`src/scraping.py` (an identical copy lives in `web_scraping.py`): find the
keyword; from there find the next `<span class="t-text -right">`; take the
text up to the following `</span>` and strip it.  When the keyword is not
found, or no opening span follows it, the function returns `None`.  When the
closing tag is missing Python's `find` returns `-1` and the slice end `-1`
silently drops the last character — this quirk is modelled exactly by
`py_slice` with stop `-1`.
-/
def extract_value_after_keyword (keyword html_text : List Char) : Option (List Char) :=
  match py_find html_text keyword 0 with
  | none => none
  | some start_index =>
    match py_find html_text span_open_tag start_index with
    | none => none
    | some span_start =>
      let span_end : ℤ :=
        match py_find html_text span_close_tag span_start with
        | none => -1
        | some e => (e : ℤ)
      some (py_strip (py_slice html_text (span_start + span_open_tag.length) span_end))

/-- Outcome of the POST to the charting service in `fetch_data`.  The request
itself (URL, cookies, headers, JSON body — module constants in the source) is
session-independent and abstracted away: only the response matters.
`exception` covers every `RequestException`: timeout, connection error, and
the `HTTPError` that `raise_for_status` turns a non-2xx status into.
On success the body is the parsed JSON: `some samples` when the expected
`"d"` list of `[timestamp, volume]` pairs is present, `none` when the body is
falsy or lacks the `"d"` key (the `KeyError` branch) — both return `None`. -/
inductive FetchOutcome where
  | exception : FetchOutcome
  | success : Option (List (ℤ × ℚ)) → FetchOutcome
deriving DecidableEq

/-- Model of `fetch_data`: the parsed JSON body, or `None` on any
`RequestException` (caught and logged, never re-raised). -/
def fetch_data : FetchOutcome → Option (Option (List (ℤ × ℚ)))
  | FetchOutcome.exception => none
  | FetchOutcome.success body => some body

/-- Result of `compute_avg_monthly_volume`: with `avg=True` the three
rounded statistics (each NaN when the sample list is empty), with
`avg=False` the volume series in millions. -/
inductive AvgVolumeResult where
  | stats : Option ℚ → Option ℚ → Option ℚ → AvgVolumeResult
  | series : List ℚ → AvgVolumeResult
deriving DecidableEq

/--
Model of `compute_avg_monthly_volume(ISIN, avg)`: fetch the volume history
and reduce it to `round(median/10^6, 2)`, `round(min/10^6, 2)`,
`round(max/10^6, 2)` (or the raw series in millions with `avg=False`).
Returns `None` when `fetch_data` returned `None` (`if not data_json`), when
the body is falsy, or when the `"d"` key is missing (`KeyError`).
-/
def compute_avg_monthly_volume (outcome : FetchOutcome) (avg : Bool) : Option AvgVolumeResult :=
  match fetch_data outcome with
  | none => none
  | some none => none
  | some (some samples) =>
    let volume := samples.map Prod.snd
    if avg then
      some (AvgVolumeResult.stats
        ((pd_median volume).map (fun m => round2 (m / 1000000)))
        ((pd_min volume).map (fun m => round2 (m / 1000000)))
        ((pd_max volume).map (fun m => round2 (m / 1000000))))
    else
      some (AvgVolumeResult.series (volume.map (fun v => v / 1000000)))

/-- Response of the GET for the instrument detail page. -/
structure PageResponse where
  status_code : ℕ
  text : List Char
deriving DecidableEq

/-- Keyword scraped by `extract_single_ISIN`. -/
def kw_numero_contratti : List Char := "Numero Contratti".data

/-- Keyword scraped by `extract_single_ISIN`. -/
def kw_volume_ultimo : List Char := "Volume Ultimo".data

/-- Keyword scraped by `extract_single_ISIN`. -/
def kw_volume_totale : List Char := "Volume totale".data

/-- Keyword scraped by `extract_single_ISIN`. -/
def kw_prezzo_ufficiale : List Char := "Prezzo ufficiale".data

/-- Keyword scraped by `extract_single_ISIN`. -/
def kw_rendimento_netto : List Char := "Rendimento effettivo a scadenza netto".data

/-- Keyword scraped by `extract_single_ISIN`. -/
def kw_rendimento_lordo : List Char := "Rendimento effettivo a scadenza lordo".data

/-- Keyword scraped by `extract_single_ISIN`. -/
def kw_duration_modificata : List Char := "Duration modificata".data

/-- Keyword scraped by `extract_single_ISIN`. -/
def kw_scadenza : List Char := "Scadenza".data

/-- Keyword scraped by `extract_single_ISIN`. -/
def kw_tasso_cedola : List Char := "Tasso Cedola su base Annua".data

/-- One keyword field of `extract_single_ISIN`: extract the value, and when
the result is truthy (`if value:` — `None` and the empty string both fail the
test and give `np.nan`) normalize the locale number formatting. -/
def extract_field (html : List Char) (keyword : List Char) : Option (List Char) :=
  match extract_value_after_keyword keyword html with
  | none => none
  | some v => if v = [] then none else some (normalize_number v)

/-- The `pd.to_datetime(df["Scadenza"], dayfirst=True)` step on the scraped
maturity string.  The conversion itself is pandas library code, so it is a
parameter `parse_date` (day number since an epoch, raising on an unparseable
string); a missing value converts to NaT (`none`). -/
def scad_step (html : List Char) (parse_date : List Char → Except PyError ℤ) :
    Except PyError (Option ℤ) :=
  match extract_field html kw_scadenza with
  | none => Except.ok none
  | some s => (parse_date s).map some

/--
Model of `extract_single_ISIN(ISIN)`.  Oracles: `page` is the GET response for
the detail page, `parse_date`/`today` stand for the pandas date handling, and
`vol` is the charting-service response consumed by the nested
`compute_avg_monthly_volume(ISIN)` call (made with the default `avg=True`).

Control flow follows the source: on a non-200 page the error is only printed,
and building the DataFrame from the never-assigned `values_list` then raises
`NameError`.  On a 200 page the nine keyword fields are scraped and
normalized, the maturity is parsed and `anni_scadenza = round(days/365, 2)`
derived, and the three volume statistics are unpacked from
`compute_avg_monthly_volume(ISIN)` — when that returns `None`, the tuple
unpacking raises `TypeError` and no row is produced.
-/
def extract_single_ISIN (ISIN : List Char) (page : PageResponse)
    (parse_date : List Char → Except PyError ℤ) (today : ℤ)
    (vol : FetchOutcome) : Except PyError RawRow :=
  if page.status_code = 200 then
    let html := page.text
    match scad_step html parse_date with
    | Except.error e => Except.error e
    | Except.ok dOpt =>
      let anni := dOpt.map (fun d => round2 (((d - today : ℤ) : ℚ) / 365))
      match compute_avg_monthly_volume vol true with
      | none => Except.error PyError.typeError
      | some (AvgVolumeResult.series _) => Except.error PyError.typeError
      | some (AvgVolumeResult.stats m mn mx) =>
        Except.ok
          { isin := ISIN
            numero_contratti := extract_field html kw_numero_contratti
            volume_ultimo := extract_field html kw_volume_ultimo
            volume_totale := extract_field html kw_volume_totale
            prezzo_ufficiale := extract_field html kw_prezzo_ufficiale
            rendimento_netto := extract_field html kw_rendimento_netto
            rendimento_lordo := extract_field html kw_rendimento_lordo
            duration_modificata := extract_field html kw_duration_modificata
            tasso_cedola := extract_field html kw_tasso_cedola
            scadenza := dOpt
            anni_scadenza := anni
            median_monthly_volume_million := m
            min_monthly_volume_million := mn
            max_monthly_volume_million := mx }
  else Except.error PyError.nameError

/-- Effect of `astype(float)` on one cell of a scraped column: NaN stays NaN, a string
must parse as a float, anything else raises (`none` = fatal `ValueError`). -/
def astype_float (x : Option (List Char)) : Option (Option ℚ) :=
  match x with
  | none => some none
  | some s =>
    match py_float s with
    | some q => some (some q)
    | none => none

/-- The `for name in c_names: df[name] = df[name].astype(float)` loop of
`extract_multiple_ISIN` (every column except `Scadenza`), per row: all cells
must coerce or the whole batch fails.  The already numeric derived columns
coerce to themselves. -/
def coerce_row (r : RawRow) : Option Row := do
  let nc ← astype_float r.numero_contratti
  let vu ← astype_float r.volume_ultimo
  let vt ← astype_float r.volume_totale
  let pu ← astype_float r.prezzo_ufficiale
  let rn ← astype_float r.rendimento_netto
  let rl ← astype_float r.rendimento_lordo
  let dm ← astype_float r.duration_modificata
  let tc ← astype_float r.tasso_cedola
  some
    { isin := r.isin
      numero_contratti := nc
      volume_ultimo := vu
      volume_totale := vt
      prezzo_ufficiale := pu
      rendimento_netto := rn
      rendimento_lordo := rl
      duration_modificata := dm
      tasso_cedola := tc
      scadenza := r.scadenza
      anni_scadenza := r.anni_scadenza
      median_monthly_volume_million := r.median_monthly_volume_million
      min_monthly_volume_million := r.min_monthly_volume_million
      max_monthly_volume_million := r.max_monthly_volume_million
      ratings := none }

end Scraping

/-- The filled median volume of a row (`fillna(0)` applied to the
`median_monthly_volume_million` column reads a NaN as 0). -/
def median_filled (r : Row) : ℚ :=
  (r.median_monthly_volume_million).getD 0

/-- The zero-volume test `df["median_monthly_volume_million"] == 0` on a row
whose median column has already been filled. -/
def is_zero_volume (r : Row) : Bool :=
  decide (r.median_monthly_volume_million = some 0)

/-- The `df_null["ratings"] = 0` assignment. -/
def set_rating_zero (r : Row) : Row :=
  { r with ratings := some 0 }

/-- The `np.digitize(..., quantiles, right=True) + 1` assignment on one row of
the nonzero-volume group. -/
def assign_rating (quantiles : List ℚ) (r : Row) : Row :=
  { r with ratings := some (((np_digitize_right (median_filled r) quantiles + 1 : ℕ) : ℚ)) }

/-- The zero/missing-volume group `df_null` (after the fill step `fill`). -/
def ratings_null_group (fill : Row → Row) (df2 : List Row) : List Row :=
  (df2.map fill).filter is_zero_volume

/-- The nonzero-volume group `df_others` (after the fill step `fill`). -/
def ratings_others_group (fill : Row → Row) (df2 : List Row) : List Row :=
  (df2.map fill).filter (fun r => ! is_zero_volume r)

/-- The percentile breakpoints of the batch:
`np.percentile(df_others["median_monthly_volume_million"], np.arange(1, 100, 1))`. -/
def ratings_quantiles (fill : Row → Row) (df2 : List Row) : List ℚ :=
  batch_quantiles ((ratings_others_group fill df2).map median_filled)

/--
Common body of the two `compute_ratings_volume_new` variants (they differ only
in the fill step `fill`, the translation of their `fillna` line): split the
table into the zero-volume group (rating 0) and the rest, compute the 1st–99th
percentile breakpoints of the rest, rate each remaining row with
`np.digitize(median, quantiles, right=True) + 1`, and concatenate the groups
(`pd.concat([df_null, df_others])`).  When the nonzero-volume group is empty
`np.percentile` is called on an empty array, which raises `IndexError`; that
is the `none` result.
-/
def ratings_pipeline (fill : Row → Row) (df2 : List Row) : Option (List Row) :=
  if (ratings_others_group fill df2).isEmpty then none
  else
    some (((ratings_null_group fill df2).map set_rating_zero) ++
      ((ratings_others_group fill df2).map (assign_rating (ratings_quantiles fill df2))))

namespace Analysis

/-- The fill step of `src/analysis.py`:
`df["median_monthly_volume_million"] = df["median_monthly_volume_million"].fillna(0)`
— only the median column is filled. -/
def fill_median (r : Row) : Row :=
  { r with median_monthly_volume_million := some (median_filled r) }

/-- Model of `compute_ratings_volume_new(df2)` in `src/analysis.py`. -/
def compute_ratings_volume_new (df2 : List Row) : Option (List Row) :=
  ratings_pipeline fill_median df2

/-- The row mask of `filter_df`:
`(anni_scadenza <= max) & (anni_scadenza >= min) & (prezzo <= prezzo_max) & (ncontratti >= min)`.
A NaN cell fails every comparison, as in pandas. -/
def row_mask (anni_scadenza_min anni_scadenza_max prezzo_max ncontratti_min : ℚ)
    (r : Row) : Bool :=
  cmp_le r.anni_scadenza anni_scadenza_max &&
  cmp_ge r.anni_scadenza anni_scadenza_min &&
  cmp_le r.prezzo_ufficiale prezzo_max &&
  cmp_ge r.numero_contratti ncontratti_min

/-- The index prefix of the `escludi_BTP` exclusion. -/
def it_isin_start : List Char := "IT".data

/-- The index prefix of the `escludi_XS` exclusion. -/
def xs_isin_start : List Char := "XS".data

/--
Model of `filter_df(df2, anni_scadenza_min, anni_scadenza_max, prezzo_max,
ncontratti_min, sort_by, escludi_BTP, escludi_XS)` in `src/analysis.py`:
keep the rows matching the range/price/contract mask, optionally drop rows
whose index starts with `"IT"` or `"XS"`, and sort descending by `sort_by`.
The final `sub_df.sort_values(sort_by, ascending=False)` step is the
parameter `sorter`: pandas guarantees only a sorted permutation of the rows
(`sort_values_ok`), leaving the order of tied sort keys to the (unstable)
sort implementation.
-/
def filter_df_with (sorter : SortColumn → List Row → List Row) (df2 : List Row)
    (anni_scadenza_min anni_scadenza_max prezzo_max ncontratti_min : ℚ)
    (sort_by : SortColumn) (escludi_BTP escludi_XS : Bool) : List Row :=
  let sub := df2.filter (row_mask anni_scadenza_min anni_scadenza_max prezzo_max ncontratti_min)
  let sub2 := if escludi_BTP then sub.filter (fun r => ! starts_with r.isin it_isin_start) else sub
  let sub3 := if escludi_XS then sub2.filter (fun r => ! starts_with r.isin xs_isin_start) else sub2
  sorter sort_by sub3

/-- The model of `filter_df` with the sort step instantiated to the stable
representative `sort_rows` (adequate wherever tie order does not matter). -/
def filter_df (df2 : List Row)
    (anni_scadenza_min anni_scadenza_max prezzo_max ncontratti_min : ℚ)
    (sort_by : SortColumn) (escludi_BTP escludi_XS : Bool) : List Row :=
  filter_df_with (fun s l => sort_rows s l) df2
    anni_scadenza_min anni_scadenza_max prezzo_max ncontratti_min
    sort_by escludi_BTP escludi_XS

/-- The duplicate-index drop `df.loc[~df.index.duplicated(keep="first")]`:
keep the first row of each ISIN. -/
def dedup_first (seen : List (List Char)) : List Row → List Row
  | [] => []
  | r :: rs =>
    if r.isin ∈ seen then dedup_first seen rs
    else r :: dedup_first (r.isin :: seen) rs

/-- The negative-maturity correction
`df.loc[df["anni_scadenza"] < 0, "anni_scadenza"] += 100` on one cell: add 100
to a negative value, leave non-negative values (and NaN, which fails the `< 0`
comparison) unchanged. -/
def improve_years (x : Option ℚ) : Option ℚ :=
  match x with
  | none => none
  | some v => if v < 0 then some (v + 100) else some v

/-- Model of `improve_data(df)` in `src/analysis.py` (the same steps open
`load_data` in `app.py`): drop duplicate ISINs keeping the first, correct
negative maturities by +100.  The subsequent column reorder and rename only
relabel the fixed record fields and are not representable on `Row`. -/
def improve_data (df : List Row) : List Row :=
  (dedup_first [] df).map (fun r => { r with anni_scadenza := improve_years r.anni_scadenza })

end Analysis

namespace Scraping

/-- The descending sort on the median-volume column performed at the end of
`extract_multiple_ISIN`. -/
def sort_desc_by_median (l : List Row) : List Row :=
  sort_rows SortColumn.median_monthly_volume_million l

/--
Model of `extract_multiple_ISIN(list_ISIN)` in `src/scraping.py`.
`fetch_one` is `extract_single_ISIN` with its network oracles fixed: one call
per ISIN (no retry).  The loop appends each successful row and prints
`"Could not extract ISIN"` for each ISIN whose extraction raised (the bare
`except`) — the first component collects those diagnostics in order.  Then
`pd.concat(list_results)` raises `ValueError` when every ISIN failed; every
column except `Scadenza` is coerced with `astype(float)` (fatal on failure);
`compute_ratings_volume_new` from `src/analysis.py` adds the ratings column
(raising `IndexError` when no retained row has nonzero filled median volume);
finally the table is sorted descending by median monthly volume.
-/
def extract_multiple_ISIN (fetch_one : List Char → Except PyError RawRow)
    (list_ISIN : List (List Char)) : List (List Char) × Except PyError (List Row) :=
  let diagnostics := list_ISIN.filter (fun i => ! except_succeeded (fetch_one i))
  let list_results := list_ISIN.filterMap (fun i => except_value (fetch_one i))
  (diagnostics,
    match list_results with
    | [] => Except.error PyError.valueError
    | _ :: _ =>
      match map_option coerce_row list_results with
      | none => Except.error PyError.valueError
      | some rows =>
        match Analysis.compute_ratings_volume_new rows with
        | none => Except.error PyError.indexError
        | some rated => Except.ok (sort_desc_by_median rated))

end Scraping

namespace WebScraping

/-- The fill step of `web_scraping.py`: `df.fillna(0, inplace=True)` fills
every data column (the ratings column does not exist yet at that point). -/
def fill_all (r : Row) : Row :=
  { isin := r.isin
    numero_contratti := some ((r.numero_contratti).getD 0)
    volume_ultimo := some ((r.volume_ultimo).getD 0)
    volume_totale := some ((r.volume_totale).getD 0)
    prezzo_ufficiale := some ((r.prezzo_ufficiale).getD 0)
    rendimento_netto := some ((r.rendimento_netto).getD 0)
    rendimento_lordo := some ((r.rendimento_lordo).getD 0)
    duration_modificata := some ((r.duration_modificata).getD 0)
    tasso_cedola := some ((r.tasso_cedola).getD 0)
    scadenza := some ((r.scadenza).getD 0)
    anni_scadenza := some ((r.anni_scadenza).getD 0)
    median_monthly_volume_million := some (median_filled r)
    min_monthly_volume_million := some ((r.min_monthly_volume_million).getD 0)
    max_monthly_volume_million := some ((r.max_monthly_volume_million).getD 0)
    ratings := r.ratings }

/-- Model of `compute_ratings_volume_new(df2)` in `web_scraping.py`: as the
`src/analysis.py` version, but `fillna(0)` fills every column. -/
def compute_ratings_volume_new (df2 : List Row) : Option (List Row) :=
  ratings_pipeline fill_all df2

/--
Model of the sequential `extract_multiple_ISIN(list_ISIN)` in
`web_scraping.py`.  The per-ISIN extraction is the oracle `fetch_one`
(an exception is `Except.error`); the rows it produces are already typed, so
the `astype(float)` loop is the identity here.  As in the source: concatenate
the successful rows (`pd.concat` raises `ValueError` on an empty list), add
the ratings column with this module's `compute_ratings_volume_new` (raising
`IndexError` when no row has nonzero filled median volume) and sort
descending by median monthly volume.
-/
def extract_multiple_ISIN (fetch_one : List Char → Except PyError Row)
    (list_ISIN : List (List Char)) : Except PyError (List Row) :=
  let list_results := list_ISIN.filterMap (fun i => except_value (fetch_one i))
  match list_results with
  | [] => Except.error PyError.valueError
  | _ :: _ =>
    match compute_ratings_volume_new list_results with
    | none => Except.error PyError.indexError
    | some rated => Except.ok (Scraping.sort_desc_by_median rated)

/--
Model of `extract_multiple_ISIN_parallel(list_ISIN)` in `web_scraping.py`:
five workers run `extract_single_ISIN` and the results are appended in
completion order — `completion_order` is that (scheduler-chosen) permutation
of `list_ISIN`.  A worker whose future raised is logged and skipped; the
`result is not None` test never fails since `extract_single_ISIN` returns a
frame or raises.  The collected frames are concatenated and returned as is —
no `astype` coercion, no ratings computation, no sort — and an empty result
list returns `None` after a message (where the sequential driver's
`pd.concat` would raise).  The fixed pool size and the 0.5 s inter-request
delay do not affect the value returned.
-/
def extract_multiple_ISIN_parallel (fetch_one : List Char → Except PyError Row)
    (list_ISIN : List (List Char)) (completion_order : List (List Char)) :
    Option (List Row) :=
  let _ := list_ISIN
  let list_results := completion_order.filterMap (fun i => except_value (fetch_one i))
  match list_results with
  | [] => none
  | _ :: _ => some list_results

end WebScraping

/-- A row with every cell missing (all NaN), used as a base for examples. -/
def base_row : Row :=
  { isin := []
    numero_contratti := none
    volume_ultimo := none
    volume_totale := none
    prezzo_ufficiale := none
    rendimento_netto := none
    rendimento_lordo := none
    duration_modificata := none
    tasso_cedola := none
    scadenza := none
    anni_scadenza := none
    median_monthly_volume_million := none
    min_monthly_volume_million := none
    max_monthly_volume_million := none
    ratings := none }

/-- Example ISIN. -/
def isin_a : List Char := "FR0001".data

/-- Example ISIN. -/
def isin_b : List Char := "DE0002".data

/-- Example ISIN. -/
def isin_c : List Char := "NL0003".data

/-- A record whose median monthly volume is zero. -/
def row_med_zero : Row :=
  { base_row with isin := isin_a, median_monthly_volume_million := some 0 }

/-- A record whose median monthly volume is missing (NaN). -/
def row_med_null : Row :=
  { base_row with isin := isin_b }

/-- A record with median monthly volume 1. -/
def row_med_one : Row :=
  { base_row with isin := isin_a, median_monthly_volume_million := some 1 }

/-- The row `row_med_one` with the rating its batch of one assigns. -/
def row_med_one_rated : Row :=
  { row_med_one with ratings := some 1 }

/-- A record with median monthly volume 10. -/
def row_med_ten : Row :=
  { base_row with isin := isin_a, median_monthly_volume_million := some 10 }

/-- A record with median monthly volume 5. -/
def row_med_five : Row :=
  { base_row with isin := isin_b, median_monthly_volume_million := some 5 }

/-- The row `row_med_ten` rated within the batch `[row_med_ten, row_med_five]`. -/
def row_med_ten_rated : Row :=
  { row_med_ten with ratings := some 100 }

/-- The row `row_med_five` rated within the batch `[row_med_ten, row_med_five]`. -/
def row_med_five_rated : Row :=
  { row_med_five with ratings := some 1 }

/-- A fully populated row (no NaN cell, so every `fillna` is the identity on
it), with median monthly volume 1 and no ratings column yet. -/
def row_full : Row :=
  { isin := isin_a
    numero_contratti := some 7
    volume_ultimo := some 2
    volume_totale := some 3
    prezzo_ufficiale := some 99
    rendimento_netto := some 2
    rendimento_lordo := some 3
    duration_modificata := some 4
    tasso_cedola := some 1
    scadenza := some 20000
    anni_scadenza := some 5
    median_monthly_volume_million := some 1
    min_monthly_volume_million := some 1
    max_monthly_volume_million := some 1
    ratings := none }

/-- The row `row_full` with the ratings column the sequential batch driver adds. -/
def row_full_rated : Row :=
  { row_full with ratings := some 1 }

/-- Per-ISIN extraction oracle that always succeeds with `row_full`. -/
def fetch_c5 : List Char → Except PyError Row :=
  fun _ => Except.ok row_full

/-- A row passing the example filter criteria, with `volume_totale` 7. -/
def row_tie_a : Row :=
  { base_row with
    isin := isin_a
    numero_contratti := some 1
    volume_totale := some 7
    prezzo_ufficiale := some 99
    anni_scadenza := some 5 }

/-- A second row passing the example filter criteria whose `volume_totale`
ties with `row_tie_a`. -/
def row_tie_b : Row :=
  { row_tie_a with isin := isin_b }

/-- A raw scraped row (all keyword cells NaN) with median monthly volume 10. -/
def raw_good : RawRow :=
  { isin := isin_a
    numero_contratti := none
    volume_ultimo := none
    volume_totale := none
    prezzo_ufficiale := none
    rendimento_netto := none
    rendimento_lordo := none
    duration_modificata := none
    tasso_cedola := none
    scadenza := none
    anni_scadenza := none
    median_monthly_volume_million := some 10
    min_monthly_volume_million := some 1
    max_monthly_volume_million := some 20 }

/-- A raw scraped row with median monthly volume 0 (keyed by `isin_c`). -/
def raw_zero_c : RawRow :=
  { raw_good with
    isin := isin_c
    median_monthly_volume_million := some 0
    min_monthly_volume_million := some 0
    max_monthly_volume_million := some 0 }

/-- A raw scraped row with median monthly volume 0 (keyed by `isin_a`). -/
def raw_zero_a : RawRow :=
  { raw_zero_c with isin := isin_a }

/-- The row `raw_good` after the `astype(float)` coercion. -/
def w_good : Row :=
  { base_row with
    isin := isin_a
    median_monthly_volume_million := some 10
    min_monthly_volume_million := some 1
    max_monthly_volume_million := some 20 }

/-- The row `raw_zero_c` after the `astype(float)` coercion. -/
def w_zero : Row :=
  { base_row with
    isin := isin_c
    median_monthly_volume_million := some 0
    min_monthly_volume_million := some 0
    max_monthly_volume_million := some 0 }

/-- Batch oracle in which exactly `isin_b` fails (a timeout, say) and the
other two ISINs extract fine, one of them with nonzero volume. -/
def fetch_c3 : List Char → Except PyError RawRow :=
  fun i =>
    if i = isin_b then Except.error PyError.typeError
    else if i = isin_c then Except.ok raw_zero_c
    else Except.ok raw_good

/-- Batch oracle in which exactly `isin_b` fails and both surviving ISINs
extract rows with zero median volume. -/
def fetch_c3_zero : List Char → Except PyError RawRow :=
  fun i =>
    if i = isin_b then Except.error PyError.typeError
    else if i = isin_c then Except.ok raw_zero_c
    else Except.ok raw_zero_a

/-- A 200 page with no scrapable content (every keyword misses). -/
def page_empty : Scraping.PageResponse :=
  { status_code := 200, text := [] }

/-- A trivial date-parsing oracle. -/
def parse_date_triv : List Char → Except PyError ℤ :=
  fun _ => Except.ok 0

/-- The locale-formatted sample `"1.234,56"`. -/
def sample_locale_1 : List Char := "1.234,56".data

/-- The canonical form of `sample_locale_1`. -/
def target_locale_1 : List Char := "1234.56".data

/-- The locale-formatted sample `"12,5"` (no thousands separator). -/
def sample_locale_2 : List Char := "12,5".data

/-- The canonical form of `sample_locale_2`. -/
def target_locale_2 : List Char := "12.5".data

/-- A detail-page fragment: the official-price label followed by a
right-aligned span holding `"1.234,56"`. -/
def html_price_span : List Char :=
  Scraping.kw_prezzo_ufficiale ++ Scraping.span_open_tag ++ sample_locale_1 ++
    Scraping.span_close_tag

/-- An HTML fragment that contains the `Scadenza` label but no right-aligned
span after it (and does not contain the other keywords at all). -/
def html_label_no_span : List Char := Scraping.kw_scadenza

/-- The descending-with-NaN-last cell order is total. -/
theorem key_le_total (u v : Option ℚ) : key_le u v = true ∨ key_le v u = true := by
  cases u <;> cases v <;> simp [key_le]
  exact le_total _ _

/-- The descending-with-NaN-last cell order is transitive. -/
theorem key_le_trans {u v w : Option ℚ} (h1 : key_le u v = true)
    (h2 : key_le v w = true) : key_le u w = true := by
  cases u <;> cases v <;> cases w <;> simp [key_le] at h1 h2 ⊢
  exact le_trans h2 h1

instance sort_rel_total (s : SortColumn) : IsTotal Row (sort_rel s) :=
  ⟨fun a b => key_le_total (get_column a s) (get_column b s)⟩

instance sort_rel_trans (s : SortColumn) : IsTrans Row (sort_rel s) :=
  ⟨fun _ _ _ h1 h2 => key_le_trans h1 h2⟩

/-- Sorting the rows is a permutation. -/
theorem sort_rows_perm (s : SortColumn) (l : List Row) : (sort_rows s l).Perm l :=
  List.perm_insertionSort (sort_rel s) l

/-- Every percentile of a one-element sample is that element. -/
theorem np_percentile_singleton (v : ℚ) (q : ℕ) : np_percentile [v] q = v := by
  simp [np_percentile, sortAsc, List.insertionSort, List.orderedInsert]

/-- All 99 breakpoints of a one-element batch equal that element. -/
theorem batch_quantiles_singleton (v : ℚ) :
    batch_quantiles [v] = List.replicate 99 v := by
  simp [batch_quantiles, np_percentile_singleton, List.map_const']

/-- A value is strictly below none of the breakpoints equal to it. -/
theorem np_digitize_right_replicate_self (v : ℚ) (n : ℕ) :
    np_digitize_right v (List.replicate n v) = 0 := by
  simp [np_digitize_right]

/-- Unfolding of the rating computation when the nonzero-volume group is
nonempty (the `np.percentile` call does not see an empty array). -/
theorem ratings_pipeline_eq_some (fill : Row → Row) (df2 : List Row)
    (h : ratings_others_group fill df2 ≠ []) :
    ratings_pipeline fill df2 =
      some (((ratings_null_group fill df2).map set_rating_zero) ++
        ((ratings_others_group fill df2).map (assign_rating (ratings_quantiles fill df2)))) := by
  unfold ratings_pipeline
  rw [if_neg (by simpa using h)]

/-- The rating computation raises (returns `none`) exactly when the
nonzero-volume group is empty. -/
theorem ratings_pipeline_eq_none (fill : Row → Row) (df2 : List Row)
    (h : ratings_others_group fill df2 = []) :
    ratings_pipeline fill df2 = none := by
  unfold ratings_pipeline
  rw [if_pos (by simpa using h)]

/-- Both fill steps leave `isin` alone and fill the median column. -/
def fill_ok (fill : Row → Row) : Prop :=
  ∀ s : Row, (fill s).isin = s.isin ∧
    (fill s).median_monthly_volume_million = some ((s.median_monthly_volume_million).getD 0)

/-- The `src/analysis.py` fill step fills the median column and keeps the key. -/
theorem fill_ok_fill_median : fill_ok Analysis.fill_median :=
  fun _ => ⟨rfl, rfl⟩

/-- The `web_scraping.py` fill step fills the median column and keeps the key. -/
theorem fill_ok_fill_all : fill_ok WebScraping.fill_all :=
  fun _ => ⟨rfl, rfl⟩

/-- Every row of a rating result is either a zero/missing-volume row rated 0,
or a nonzero-volume row rated `digitize(median, quantiles) + 1`. -/
theorem ratings_pipeline_mem (fill : Row → Row) (hf : fill_ok fill)
    (df2 out : List Row) (h : ratings_pipeline fill df2 = some out)
    (r : Row) (hr : r ∈ out) :
    (r.median_monthly_volume_million = some 0 ∧ r.ratings = some 0) ∨
    (∃ v : ℚ, r.median_monthly_volume_million = some v ∧ v ≠ 0 ∧
      r.ratings = some (((np_digitize_right v (ratings_quantiles fill df2) + 1 : ℕ) : ℚ))) := by
  by_cases he : ratings_others_group fill df2 = []
  · rw [ratings_pipeline_eq_none fill df2 he] at h
    cases h
  · rw [ratings_pipeline_eq_some fill df2 he] at h
    cases h
    rcases List.mem_append.mp hr with hmem | hmem
    · rcases List.mem_map.mp hmem with ⟨r0, hr0, rfl⟩
      rcases List.mem_filter.mp hr0 with ⟨_, hz⟩
      left
      have hz2 : r0.median_monthly_volume_million = some 0 := of_decide_eq_true hz
      exact ⟨hz2, rfl⟩
    · rcases List.mem_map.mp hmem with ⟨r0, hr0, rfl⟩
      rcases List.mem_filter.mp hr0 with ⟨hin, hz⟩
      rcases List.mem_map.mp hin with ⟨s, _, rfl⟩
      right
      refine ⟨(s.median_monthly_volume_million).getD 0, (hf s).2, ?_, ?_⟩
      · intro h0
        rw [is_zero_volume, (hf s).2, h0] at hz
        simp at hz
      · show (assign_rating (ratings_quantiles fill df2) (fill s)).ratings = _
        unfold assign_rating median_filled
        rw [(hf s).2]
        rfl

/-- The rating computation permutes the rows (each with its median filled and
its rating set), so the multiset of ISIN keys is unchanged. -/
theorem ratings_pipeline_isin_perm (fill : Row → Row) (hf : fill_ok fill)
    (df2 out : List Row) (h : ratings_pipeline fill df2 = some out) :
    (out.map Row.isin).Perm (df2.map Row.isin) := by
  by_cases he : ratings_others_group fill df2 = []
  · rw [ratings_pipeline_eq_none fill df2 he] at h
    cases h
  · rw [ratings_pipeline_eq_some fill df2 he] at h
    cases h
    rw [List.map_append, List.map_map, List.map_map]
    have h1 : Row.isin ∘ set_rating_zero = Row.isin := by
      funext r
      rfl
    have h2 : Row.isin ∘ assign_rating (ratings_quantiles fill df2) = Row.isin := by
      funext r
      rfl
    rw [h1, h2, ratings_null_group, ratings_others_group]
    have h3 : ((((df2.map fill).filter is_zero_volume).map Row.isin) ++
        (((df2.map fill).filter (fun r => ! is_zero_volume r)).map Row.isin)).Perm
        ((df2.map fill).map Row.isin) := by
      rw [← List.map_append]
      exact (List.filter_append_perm _ _).map Row.isin
    refine h3.trans ?_
    rw [List.map_map]
    have h4 : Row.isin ∘ fill = Row.isin := by
      funext r
      exact (hf r).1
    rw [h4]

/-- The rating computation preserves the number of records. -/
theorem ratings_pipeline_length (fill : Row → Row) (hf : fill_ok fill)
    (df2 out : List Row) (h : ratings_pipeline fill df2 = some out) :
    out.length = df2.length := by
  have := (ratings_pipeline_isin_perm fill hf df2 out h).length_eq
  simpa using this

/-- C4: the claim says an all-zero-volume batch gets rating 0 everywhere with
no error; in the code the nonzero-volume group is then empty and
`np.percentile` is called on an empty array, which raises `IndexError`
(modelled as `none`): the rating computation errors instead of rating the
batch.  The two premise conjuncts exhibit the all-zero/missing batch. -/
theorem compute_ratings_all_zero_volume_errors :
    row_med_zero.median_monthly_volume_million = some 0 ∧
    row_med_null.median_monthly_volume_million = none ∧
    Analysis.compute_ratings_volume_new [row_med_zero, row_med_null] = none :=
  ⟨rfl, rfl, rfl⟩

/-- Concrete rating run: a batch of one record with median volume 1 rates it 1
(all 99 breakpoints of a singleton sample equal the sample). -/
theorem ratings_eval_one :
    Analysis.compute_ratings_volume_new [row_med_one] = some [row_med_one_rated] := by
  have hothers : ratings_others_group Analysis.fill_median [row_med_one] = [row_med_one] := rfl
  have hq : ratings_quantiles Analysis.fill_median [row_med_one] = List.replicate 99 1 := by
    show batch_quantiles ((ratings_others_group Analysis.fill_median [row_med_one]).map median_filled) = _
    rw [hothers]
    show batch_quantiles [1] = _
    exact batch_quantiles_singleton 1
  show ratings_pipeline Analysis.fill_median [row_med_one] = _
  rw [ratings_pipeline_eq_some Analysis.fill_median [row_med_one] (by rw [hothers]; simp)]
  rw [hothers]
  show some ([] ++ [assign_rating (ratings_quantiles Analysis.fill_median [row_med_one]) row_med_one]) = _
  rw [hq]
  unfold assign_rating
  rw [show median_filled row_med_one = 1 from rfl]
  rw [np_digitize_right_replicate_self]
  norm_num
  rfl

/--
C2: for every table the Rating Computer processes to completion, every
record's rating is a natural number at most 100; the rating is 0 exactly when
the record's median monthly volume is 0 or missing; and a record with nonzero
median volume gets a rating between 1 and 100.
-/
theorem compute_ratings_range_and_zero_iff (df2 out : List Row)
    (h : Analysis.compute_ratings_volume_new df2 = some out) (r : Row) (hr : r ∈ out) :
    (∃ n : ℕ, n ≤ 100 ∧ r.ratings = some ((n : ℚ))) ∧
    (r.ratings = some 0 ↔
      (r.median_monthly_volume_million = some 0 ∨ r.median_monthly_volume_million = none)) ∧
    (∀ v : ℚ, r.median_monthly_volume_million = some v → v ≠ 0 →
      ∃ n : ℕ, 1 ≤ n ∧ n ≤ 100 ∧ r.ratings = some ((n : ℚ))) := by
  have hchar := ratings_pipeline_mem Analysis.fill_median fill_ok_fill_median df2 out h r hr
  have hqlen : (ratings_quantiles Analysis.fill_median df2).length = 99 := by
    simp [ratings_quantiles, batch_quantiles]
  rcases hchar with ⟨hm, hrat⟩ | ⟨v, hm, hv, hrat⟩
  · refine ⟨⟨0, by norm_num, by simpa using hrat⟩, ⟨fun _ => Or.inl hm, fun _ => hrat⟩, ?_⟩
    intro v hv hv0
    rw [hm] at hv
    exact absurd (Option.some_inj.mp hv).symm hv0
  · have hd : np_digitize_right v (ratings_quantiles Analysis.fill_median df2) ≤ 99 := by
      have := List.countP_le_length
        (p := fun b => decide (b < v)) (l := ratings_quantiles Analysis.fill_median df2)
      rw [hqlen] at this
      exact this
    have hne : r.ratings ≠ some 0 := by
      rw [hrat]
      intro h0
      have h1 : ((np_digitize_right v (ratings_quantiles Analysis.fill_median df2) + 1 : ℕ) : ℚ) = 0 :=
        Option.some_inj.mp h0
      have h2 := Nat.cast_eq_zero.mp h1
      omega
    refine ⟨⟨np_digitize_right v (ratings_quantiles Analysis.fill_median df2) + 1, by omega, hrat⟩, ?_, ?_⟩
    · constructor
      · intro h0
        exact absurd h0 hne
      · intro hcase
        rcases hcase with h0 | h0
        · rw [hm] at h0
          exact absurd (Option.some_inj.mp h0) hv
        · rw [hm] at h0
          cases h0
    · intro v2 _ _
      exact ⟨np_digitize_right v (ratings_quantiles Analysis.fill_median df2) + 1, by omega, by omega, hrat⟩

/-- Witness for C2 at the batch `[row_med_one]`, rated `[row_med_one_rated]`. -/
theorem compute_ratings_range_and_zero_iff_witness :
    (∃ n : ℕ, n ≤ 100 ∧ row_med_one_rated.ratings = some ((n : ℚ))) ∧
    (row_med_one_rated.ratings = some 0 ↔
      (row_med_one_rated.median_monthly_volume_million = some 0 ∨
        row_med_one_rated.median_monthly_volume_million = none)) ∧
    (∀ v : ℚ, row_med_one_rated.median_monthly_volume_million = some v → v ≠ 0 →
      ∃ n : ℕ, 1 ≤ n ∧ n ≤ 100 ∧ row_med_one_rated.ratings = some ((n : ℚ))) :=
  compute_ratings_range_and_zero_iff [row_med_one] [row_med_one_rated] ratings_eval_one
    row_med_one_rated (by simp)

/-- More bins clear a higher value: `np.digitize(·, bins, right=True)` is
monotone in its first argument. -/
theorem np_digitize_right_mono {x y : ℚ} (bins : List ℚ) (hxy : x ≤ y) :
    np_digitize_right x bins ≤ np_digitize_right y bins := by
  apply List.countP_mono_left
  intro b _ hb
  have hb2 : b < x := of_decide_eq_true hb
  exact decide_eq_true (lt_of_lt_of_le hb2 hxy)

/--
C6: percentile rating assignment is monotone: in one rated batch, if records
A and B both have nonzero median monthly volume and A's median volume is
strictly greater than B's, then A's rating is at least B's.
-/
theorem compute_ratings_monotone (df2 out : List Row)
    (h : Analysis.compute_ratings_volume_new df2 = some out)
    (a b : Row) (ha : a ∈ out) (hb : b ∈ out)
    (va vb : ℚ) (hva : a.median_monthly_volume_million = some va)
    (hvb : b.median_monthly_volume_million = some vb)
    (hva0 : va ≠ 0) (hvb0 : vb ≠ 0) (hgt : vb < va)
    (ra rb : ℚ) (hra : a.ratings = some ra) (hrb : b.ratings = some rb) :
    rb ≤ ra := by
  have hcha := ratings_pipeline_mem Analysis.fill_median fill_ok_fill_median df2 out h a ha
  have hchb := ratings_pipeline_mem Analysis.fill_median fill_ok_fill_median df2 out h b hb
  rcases hcha with ⟨hm, _⟩ | ⟨v1, hm1, _, hrat1⟩
  · rw [hva] at hm
    exact absurd (Option.some_inj.mp hm) hva0
  rcases hchb with ⟨hm, _⟩ | ⟨v2, hm2, _, hrat2⟩
  · rw [hvb] at hm
    exact absurd (Option.some_inj.mp hm) hvb0
  have hv1 : v1 = va := Option.some_inj.mp (hm1.symm.trans hva)
  have hv2 : v2 = vb := Option.some_inj.mp (hm2.symm.trans hvb)
  rw [hv1] at hrat1
  rw [hv2] at hrat2
  have hra2 : ra = ((np_digitize_right va (ratings_quantiles Analysis.fill_median df2) + 1 : ℕ) : ℚ) :=
    Option.some_inj.mp (hra.symm.trans hrat1)
  have hrb2 : rb = ((np_digitize_right vb (ratings_quantiles Analysis.fill_median df2) + 1 : ℕ) : ℚ) :=
    Option.some_inj.mp (hrb.symm.trans hrat2)
  rw [hra2, hrb2]
  have hmono := np_digitize_right_mono (ratings_quantiles Analysis.fill_median df2) (le_of_lt hgt)
  exact_mod_cast Nat.succ_le_succ hmono

/-- The percentiles of the two-element sample `[10, 5]`: for `q ≤ 99` the
interpolated value is `5 + q/100 * 5`. -/
theorem np_percentile_pair (q : ℕ) (hq : q ≤ 99) :
    np_percentile [10, 5] q = 5 + (q : ℚ) / 100 * 5 := by
  have hs : sortAsc [10, 5] = [5, 10] := by decide
  have hlo : q * (([5, 10] : List ℚ).length - 1) / 100 = 0 := by
    simp only [List.length_cons, List.length_nil]
    omega
  have hfrac : q * (([5, 10] : List ℚ).length - 1) % 100 = q := by
    simp only [List.length_cons, List.length_nil]
    omega
  simp only [np_percentile, hs, hlo, hfrac]
  norm_num

/-- The value 10 clears all 99 breakpoints of the batch `[10, 5]`. -/
theorem np_digitize_right_pair_ten :
    np_digitize_right 10 (batch_quantiles [10, 5]) = 99 := by
  unfold np_digitize_right batch_quantiles
  rw [List.countP_map]
  have hall : ∀ k ∈ List.range 99,
      (((fun b => decide (b < 10)) ∘ fun k => np_percentile [10, 5] (k + 1)) k) = true := by
    intro k hk
    have hk99 : k + 1 ≤ 99 := by
      have := List.mem_range.mp hk
      omega
    show decide (np_percentile [10, 5] (k + 1) < 10) = true
    rw [np_percentile_pair (k + 1) hk99]
    rw [decide_eq_true_eq]
    have hc : ((k + 1 : ℕ) : ℚ) ≤ 99 := by exact_mod_cast hk99
    linarith
  rw [List.countP_eq_length.mpr hall]
  simp

/-- The value 5 clears none of the breakpoints of the batch `[10, 5]`. -/
theorem np_digitize_right_pair_five :
    np_digitize_right 5 (batch_quantiles [10, 5]) = 0 := by
  unfold np_digitize_right batch_quantiles
  rw [List.countP_map]
  rw [List.countP_eq_zero]
  intro k hk
  have hk99 : k + 1 ≤ 99 := by
    have := List.mem_range.mp hk
    omega
  show ¬ (decide (np_percentile [10, 5] (k + 1) < 5) = true)
  rw [np_percentile_pair (k + 1) hk99]
  rw [decide_eq_true_eq]
  intro hlt
  have hc : (0 : ℚ) ≤ ((k + 1 : ℕ) : ℚ) := by positivity
  nlinarith

/-- Concrete rating run: the batch `[row_med_ten, row_med_five]` rates the
record with median 10 at 100 and the record with median 5 at 1. -/
theorem ratings_eval_pair :
    Analysis.compute_ratings_volume_new [row_med_ten, row_med_five] =
      some [row_med_ten_rated, row_med_five_rated] := by
  have hothers : ratings_others_group Analysis.fill_median [row_med_ten, row_med_five] =
      [row_med_ten, row_med_five] := rfl
  have hq : ratings_quantiles Analysis.fill_median [row_med_ten, row_med_five] =
      batch_quantiles [10, 5] := by
    show batch_quantiles
        ((ratings_others_group Analysis.fill_median [row_med_ten, row_med_five]).map median_filled) = _
    rw [hothers]
    rfl
  show ratings_pipeline Analysis.fill_median [row_med_ten, row_med_five] = _
  rw [ratings_pipeline_eq_some Analysis.fill_median [row_med_ten, row_med_five]
    (by rw [hothers]; simp)]
  rw [hothers]
  show some ([] ++
      [assign_rating (ratings_quantiles Analysis.fill_median [row_med_ten, row_med_five]) row_med_ten,
        assign_rating (ratings_quantiles Analysis.fill_median [row_med_ten, row_med_five]) row_med_five]) = _
  rw [hq]
  unfold assign_rating
  rw [show median_filled row_med_ten = 10 from rfl, show median_filled row_med_five = 5 from rfl]
  rw [np_digitize_right_pair_ten, np_digitize_right_pair_five]
  norm_num
  constructor
  · rfl
  · rfl

/-- Witness for C6 at the batch `[row_med_ten, row_med_five]`: record A has
median 10 and rating 100, record B has median 5 and rating 1, and 1 ≤ 100. -/
theorem compute_ratings_monotone_witness : (1 : ℚ) ≤ (100 : ℚ) :=
  compute_ratings_monotone [row_med_ten, row_med_five]
    [row_med_ten_rated, row_med_five_rated] ratings_eval_pair
    row_med_ten_rated row_med_five_rated (by simp) (by simp)
    10 5 rfl rfl (by norm_num) (by norm_num) (by norm_num)
    100 1 rfl rfl

/-- Counterexample for C1 as stated: when the volume fetch raises, the Volume
Fetcher does return `None` without raising (first two conjuncts, for a network
exception and for a body missing the `"d"` list), but `extract_single_ISIN`
then raises `TypeError` unpacking that `None` into three values — it does NOT
build a record with null volume fields. -/
theorem volume_failure_aborts_record :
    Scraping.compute_avg_monthly_volume Scraping.FetchOutcome.exception true = none ∧
    Scraping.compute_avg_monthly_volume (Scraping.FetchOutcome.success none) true = none ∧
    Scraping.extract_single_ISIN isin_a page_empty parse_date_triv 0
      Scraping.FetchOutcome.exception = Except.error PyError.typeError :=
  ⟨rfl, rfl, rfl⟩

/--
C1 (amended): for every volume-history request whose fetch fails (network
error, timeout, non-success HTTP status, or a body missing the expected data
list) the Volume Fetcher `compute_avg_monthly_volume` returns `None` without
raising; but the Instrument Extractor `extract_single_ISIN` does not
propagate nulls into the record's volume fields — unpacking the `None` raises
`TypeError`, aborting the construction of that record (the batch survives
because `extract_multiple_ISIN` catches per-record exceptions and drops the
ISIN).
-/
theorem volume_fetch_failure_behavior (outcome : Scraping.FetchOutcome) (avg : Bool)
    (houtcome : outcome = Scraping.FetchOutcome.exception ∨
      outcome = Scraping.FetchOutcome.success none)
    (ISIN : List Char) (page : Scraping.PageResponse)
    (parse_date : List Char → Except PyError ℤ) (today : ℤ) (dOpt : Option ℤ)
    (hpage : page.status_code = 200)
    (hscad : Scraping.scad_step page.text parse_date = Except.ok dOpt) :
    Scraping.compute_avg_monthly_volume outcome avg = none ∧
    Scraping.extract_single_ISIN ISIN page parse_date today outcome =
      Except.error PyError.typeError := by
  have hnone : ∀ b : Bool, Scraping.compute_avg_monthly_volume outcome b = none := by
    intro b
    rcases houtcome with h | h <;> rw [h] <;> rfl
  refine ⟨hnone avg, ?_⟩
  unfold Scraping.extract_single_ISIN
  rw [if_pos hpage]
  simp only [hscad, hnone true]

/-- Witness for C1 (amended) at a concrete failing fetch. -/
theorem volume_fetch_failure_behavior_witness :
    Scraping.compute_avg_monthly_volume Scraping.FetchOutcome.exception false = none ∧
    Scraping.extract_single_ISIN isin_b page_empty parse_date_triv 0
      Scraping.FetchOutcome.exception = Except.error PyError.typeError :=
  volume_fetch_failure_behavior Scraping.FetchOutcome.exception false (Or.inl rfl)
    isin_b page_empty parse_date_triv 0 none rfl rfl

/-- Counterexample for C3 as stated: a batch of 3 ISINs in which exactly
`isin_b` fails (first three conjuncts) but both surviving records carry zero
median volume; the rating step then calls `np.percentile` on an empty group
and the `IndexError` escapes the batch call instead of a 2-record table being
returned. -/
theorem extract_multiple_one_failure_counterexample :
    except_succeeded (fetch_c3_zero isin_a) = true ∧
    except_succeeded (fetch_c3_zero isin_b) = false ∧
    except_succeeded (fetch_c3_zero isin_c) = true ∧
    Scraping.extract_multiple_ISIN fetch_c3_zero [isin_a, isin_b, isin_c] =
      ([isin_b], Except.error PyError.indexError) :=
  ⟨rfl, rfl, rfl, rfl⟩

/--
C3 (amended): for a batch of 3 ISINs where extraction of exactly one ISIN
fails, `extract_multiple_ISIN` emits exactly one diagnostic — for the failed
ISIN, which is attempted once and not retried — and, provided at least one of
the two surviving records coerces and has nonzero (filled) median monthly
volume, returns a table of exactly 2 records, one per successfully extracted
ISIN, with no exception escaping.  (Without that proviso the rating step's
`np.percentile` call on an empty group raises, see the counterexample.)
-/
theorem extract_multiple_one_failure (fetch_one : List Char → Except PyError RawRow)
    (i1 i2 i3 : List Char) (r1 r3 : RawRow) (e : PyError) (w1 w3 : Row)
    (h1 : fetch_one i1 = Except.ok r1) (h2 : fetch_one i2 = Except.error e)
    (h3 : fetch_one i3 = Except.ok r3)
    (hc1 : Scraping.coerce_row r1 = some w1) (hc3 : Scraping.coerce_row r3 = some w3)
    (hnz : (w1.median_monthly_volume_million).getD 0 ≠ 0 ∨
      (w3.median_monthly_volume_million).getD 0 ≠ 0) :
    ∃ rows : List Row,
      Scraping.extract_multiple_ISIN fetch_one [i1, i2, i3] = ([i2], Except.ok rows) ∧
      rows.length = 2 ∧ (rows.map Row.isin).Perm [w1.isin, w3.isin] := by
  have hdiag : List.filter (fun i => ! except_succeeded (fetch_one i)) [i1, i2, i3] = [i2] := by
    simp [List.filter_cons, h1, h2, h3, except_succeeded]
  have hres : List.filterMap (fun i => except_value (fetch_one i)) [i1, i2, i3] = [r1, r3] := by
    simp [List.filterMap_cons, h1, h2, h3, except_value]
  have hco : map_option Scraping.coerce_row [r1, r3] = some [w1, w3] := by
    simp [map_option, hc1, hc3]
  have hne : ratings_others_group Analysis.fill_median [w1, w3] ≠ [] := by
    rcases hnz with hz | hz
    · apply List.ne_nil_of_mem (a := Analysis.fill_median w1)
      apply List.mem_filter.mpr
      refine ⟨List.mem_map.mpr ⟨w1, by simp, rfl⟩, ?_⟩
      simpa [is_zero_volume, Analysis.fill_median, median_filled] using hz
    · apply List.ne_nil_of_mem (a := Analysis.fill_median w3)
      apply List.mem_filter.mpr
      refine ⟨List.mem_map.mpr ⟨w3, by simp, rfl⟩, ?_⟩
      simpa [is_zero_volume, Analysis.fill_median, median_filled] using hz
  have hrat := ratings_pipeline_eq_some Analysis.fill_median [w1, w3] hne
  refine ⟨Scraping.sort_desc_by_median
    (((ratings_null_group Analysis.fill_median [w1, w3]).map set_rating_zero) ++
      ((ratings_others_group Analysis.fill_median [w1, w3]).map
        (assign_rating (ratings_quantiles Analysis.fill_median [w1, w3])))), ?_, ?_, ?_⟩
  · unfold Scraping.extract_multiple_ISIN
    simp only [hdiag, hres, hco, Analysis.compute_ratings_volume_new, hrat]
  · unfold Scraping.sort_desc_by_median
    rw [(sort_rows_perm SortColumn.median_monthly_volume_million _).length_eq]
    exact ratings_pipeline_length Analysis.fill_median fill_ok_fill_median [w1, w3] _ hrat
  · unfold Scraping.sort_desc_by_median
    refine ((sort_rows_perm SortColumn.median_monthly_volume_million _).map Row.isin).trans ?_
    simpa using ratings_pipeline_isin_perm Analysis.fill_median fill_ok_fill_median [w1, w3] _ hrat

/-- Witness for C3 (amended) at the oracle `fetch_c3`: `isin_b` fails,
`isin_a` and `isin_c` survive, `isin_a` with median volume 10. -/
theorem extract_multiple_one_failure_witness :
    ∃ rows : List Row,
      Scraping.extract_multiple_ISIN fetch_c3 [isin_a, isin_b, isin_c] =
        ([isin_b], Except.ok rows) ∧
      rows.length = 2 ∧ (rows.map Row.isin).Perm [w_good.isin, w_zero.isin] :=
  extract_multiple_one_failure fetch_c3 isin_a isin_b isin_c raw_good raw_zero_c
    PyError.typeError w_good w_zero rfl rfl rfl rfl rfl (Or.inl (by decide))

/-- Concrete rating run of the `web_scraping.py` variant: the batch
`[row_full]` rates its one record 1. -/
theorem ratings_eval_full :
    WebScraping.compute_ratings_volume_new [row_full] = some [row_full_rated] := by
  have hothers : ratings_others_group WebScraping.fill_all [row_full] = [row_full] := rfl
  have hq : ratings_quantiles WebScraping.fill_all [row_full] = List.replicate 99 1 := by
    show batch_quantiles ((ratings_others_group WebScraping.fill_all [row_full]).map median_filled) = _
    rw [hothers]
    show batch_quantiles [1] = _
    exact batch_quantiles_singleton 1
  show ratings_pipeline WebScraping.fill_all [row_full] = _
  rw [ratings_pipeline_eq_some WebScraping.fill_all [row_full] (by rw [hothers]; simp)]
  rw [hothers]
  show some ([] ++ [assign_rating (ratings_quantiles WebScraping.fill_all [row_full]) row_full]) = _
  rw [hq]
  unfold assign_rating
  rw [show median_filled row_full = 1 from rfl]
  rw [np_digitize_right_replicate_self]
  norm_num
  rfl

/-- The sequential `web_scraping.py` batch driver on the one-ISIN batch:
coercion, rating and sort give the rated row. -/
theorem seq_eval_full :
    WebScraping.extract_multiple_ISIN fetch_c5 [isin_a] = Except.ok [row_full_rated] := by
  have hres : List.filterMap (fun i => except_value (fetch_c5 i)) [isin_a] = [row_full] := rfl
  unfold WebScraping.extract_multiple_ISIN
  simp only [hres, ratings_eval_full]
  rfl

/-- Counterexample for C5 as stated: on the one-ISIN batch `[isin_a]` the
sequential strategy returns the record enriched with a ratings column while
the bounded-concurrency strategy returns the raw record with no ratings
column — not the same logical result set even modulo row order. -/
theorem extract_strategies_differ :
    WebScraping.extract_multiple_ISIN fetch_c5 [isin_a] = Except.ok [row_full_rated] ∧
    WebScraping.extract_multiple_ISIN_parallel fetch_c5 [isin_a] [isin_a] = some [row_full] ∧
    ¬ (([row_full_rated] : List Row).Perm [row_full]) := by
  refine ⟨seq_eval_full, rfl, ?_⟩
  intro h
  have h2 : row_full_rated = row_full := by
    have := List.perm_singleton.mp h
    simpa using this
  have h3 := congrArg Row.ratings h2
  rw [show row_full_rated.ratings = some 1 from rfl, show row_full.ratings = none from rfl] at h3
  exact Option.noConfusion h3

/--
C5 (amended): under any completion order, the sequential and the
bounded-concurrency batch strategies retain exactly the same multiset of
ISINs — the successfully extracted ones — whenever both return a table (the
sequential driver additionally needs its rating step to succeed).  The full
rows differ: the sequential driver fills NaNs, adds the ratings column and
sorts, while the parallel driver returns the raw concatenated records (and
`None` instead of an exception when every ISIN failed); see the
counterexample.
-/
theorem extract_strategies_same_isins (fetch_one : List Char → Except PyError Row)
    (list_ISIN completion_order : List (List Char))
    (hperm : completion_order.Perm list_ISIN)
    (rows rows2 : List Row)
    (hseq : WebScraping.extract_multiple_ISIN fetch_one list_ISIN = Except.ok rows)
    (hpar : WebScraping.extract_multiple_ISIN_parallel fetch_one list_ISIN completion_order =
      some rows2) :
    (rows.map Row.isin).Perm (rows2.map Row.isin) := by
  unfold WebScraping.extract_multiple_ISIN at hseq
  unfold WebScraping.extract_multiple_ISIN_parallel at hpar
  rcases hres : List.filterMap (fun i => except_value (fetch_one i)) list_ISIN with _ | ⟨a, l⟩
  · simp only [hres] at hseq
    cases hseq
  · simp only [hres] at hseq
    rcases hrat : WebScraping.compute_ratings_volume_new (a :: l) with _ | rated
    · simp only [hrat] at hseq
      cases hseq
    · simp only [hrat, Except.ok.injEq] at hseq
      rcases hpres : List.filterMap (fun i => except_value (fetch_one i)) completion_order
          with _ | ⟨b, m⟩
      · simp only [hpres] at hpar
        cases hpar
      · simp only [hpres, Option.some.injEq] at hpar
        have hp1 : ((Scraping.sort_desc_by_median rated).map Row.isin).Perm
            (rated.map Row.isin) :=
          (sort_rows_perm SortColumn.median_monthly_volume_million rated).map Row.isin
        have hp2 : (rated.map Row.isin).Perm ((a :: l).map Row.isin) :=
          ratings_pipeline_isin_perm WebScraping.fill_all fill_ok_fill_all (a :: l) rated hrat
        have hp3 : ((b :: m).map Row.isin).Perm ((a :: l).map Row.isin) := by
          rw [← hpres, ← hres]
          exact (hperm.filterMap (fun i => except_value (fetch_one i))).map Row.isin
        rw [← hseq, ← hpar]
        exact (hp1.trans hp2).trans hp3.symm

/-- Witness for C5 (amended) on the one-ISIN batch: both strategies retain
exactly the ISIN multiset `[isin_a]`. -/
theorem extract_strategies_same_isins_witness :
    (([row_full_rated] : List Row).map Row.isin).Perm
      (([row_full] : List Row).map Row.isin) :=
  extract_strategies_same_isins fetch_c5 [isin_a] [isin_a] (List.Perm.refl _)
    [row_full_rated] [row_full] seq_eval_full rfl

/-- Membership through an optional exclusion filter. -/
theorem mem_of_mem_if_filter {l : List Row} {p : Row → Bool} {e : Bool} {r : Row}
    (h : r ∈ (if e then l.filter p else l)) : r ∈ l ∧ (e = true → p r = true) := by
  cases e
  · simp only [Bool.false_eq_true, if_false] at h
    exact ⟨h, fun hf => absurd hf (by simp)⟩
  · simp only [if_true] at h
    rcases List.mem_filter.mp h with ⟨hm, hp⟩
    exact ⟨hm, fun _ => hp⟩

/-- The descending-with-NaN-last cell order is antisymmetric on values. -/
theorem key_le_antisymm {u v : Option ℚ} (h1 : key_le u v = true)
    (h2 : key_le v u = true) : u = v := by
  cases u <;> cases v <;> simp [key_le] at h1 h2 ⊢
  exact le_antisymm h2 h1

/-- The stable representative satisfies the `sort_values` contract. -/
theorem sort_rows_ok : sort_values_ok (fun s l => sort_rows s l) :=
  fun s l => ⟨List.perm_insertionSort (sort_rel s) l, List.sorted_insertionSort (sort_rel s) l⟩

/-- The tie-permuting sorter also satisfies the `sort_values` contract: its
output is always a permutation of the input, sorted descending. -/
theorem tie_swap_sort_ok : sort_values_ok tie_swap_sort := by
  intro s l
  rcases l with _ | ⟨a, _ | ⟨b, _ | ⟨c, t⟩⟩⟩
  · exact ⟨List.perm_insertionSort (sort_rel s) _, List.sorted_insertionSort (sort_rel s) _⟩
  · exact ⟨List.perm_insertionSort (sort_rel s) _, List.sorted_insertionSort (sort_rel s) _⟩
  · by_cases hcond : (key_le (get_column a s) (get_column b s) &&
        key_le (get_column b s) (get_column a s)) = true
    · have he : tie_swap_sort s [a, b] = [b, a] := by
        show (if (key_le (get_column a s) (get_column b s) &&
            key_le (get_column b s) (get_column a s)) = true
          then [b, a] else sort_rows s [a, b]) = [b, a]
        rw [if_pos hcond]
      rw [he]
      refine ⟨List.Perm.swap a b [], ?_⟩
      rw [List.sorted_cons]
      refine ⟨?_, List.sorted_singleton a⟩
      intro x hx
      rw [List.mem_singleton] at hx
      subst hx
      have hc2 := hcond
      rw [Bool.and_eq_true] at hc2
      exact hc2.2
    · have he : tie_swap_sort s [a, b] = sort_rows s [a, b] := by
        show (if (key_le (get_column a s) (get_column b s) &&
            key_le (get_column b s) (get_column a s)) = true
          then [b, a] else sort_rows s [a, b]) = sort_rows s [a, b]
        rw [if_neg hcond]
      rw [he]
      exact ⟨List.perm_insertionSort (sort_rel s) _, List.sorted_insertionSort (sort_rel s) _⟩
  · exact ⟨List.perm_insertionSort (sort_rel s) _, List.sorted_insertionSort (sort_rel s) _⟩

/-- Every row of a `filter_df_with` result passes the mask and the enabled
exclusions, for any admissible sorter. -/
theorem mem_filter_df_with {sorter : SortColumn → List Row → List Row}
    (hs : sort_values_ok sorter)
    {df : List Row} {am ax pm nm : ℚ} {s : SortColumn} {e1 e2 : Bool} {r : Row}
    (h : r ∈ Analysis.filter_df_with sorter df am ax pm nm s e1 e2) :
    Analysis.row_mask am ax pm nm r = true ∧
    (e1 = true → (! starts_with r.isin Analysis.it_isin_start) = true) ∧
    (e2 = true → (! starts_with r.isin Analysis.xs_isin_start) = true) := by
  simp only [Analysis.filter_df_with] at h
  rw [((hs s _).1).mem_iff] at h
  obtain ⟨h2, hxs⟩ := mem_of_mem_if_filter h
  obtain ⟨h1, hit⟩ := mem_of_mem_if_filter h2
  obtain ⟨_, hmask⟩ := List.mem_filter.mp h1
  exact ⟨hmask, hit, hxs⟩

/-- On a table whose rows all pass the mask and the enabled exclusions, the
selection steps of `filter_df_with` remove nothing: the result is just the
sorter applied to the table. -/
theorem filter_df_with_filters_nothing {sorter : SortColumn → List Row → List Row}
    {X : List Row} {am ax pm nm : ℚ} {s : SortColumn} {e1 e2 : Bool}
    (hmask : ∀ r ∈ X, Analysis.row_mask am ax pm nm r = true)
    (hit : e1 = true → ∀ r ∈ X, (! starts_with r.isin Analysis.it_isin_start) = true)
    (hxs : e2 = true → ∀ r ∈ X, (! starts_with r.isin Analysis.xs_isin_start) = true) :
    Analysis.filter_df_with sorter X am ax pm nm s e1 e2 = sorter s X := by
  have h1 : X.filter (Analysis.row_mask am ax pm nm) = X := List.filter_eq_self.mpr hmask
  cases e1
  · cases e2
    · show sorter s (X.filter (Analysis.row_mask am ax pm nm)) = sorter s X
      rw [h1]
    · show sorter s ((X.filter (Analysis.row_mask am ax pm nm)).filter
        (fun r => ! starts_with r.isin Analysis.xs_isin_start)) = sorter s X
      rw [h1, List.filter_eq_self.mpr (hxs rfl)]
  · cases e2
    · show sorter s ((X.filter (Analysis.row_mask am ax pm nm)).filter
        (fun r => ! starts_with r.isin Analysis.it_isin_start)) = sorter s X
      rw [h1, List.filter_eq_self.mpr (hit rfl)]
    · show sorter s (((X.filter (Analysis.row_mask am ax pm nm)).filter
        (fun r => ! starts_with r.isin Analysis.it_isin_start)).filter
        (fun r => ! starts_with r.isin Analysis.xs_isin_start)) = sorter s X
      rw [h1, List.filter_eq_self.mpr (hit rfl), List.filter_eq_self.mpr (hxs rfl)]

/-- A `filter_df_with` result is sorted by the sort column, for any admissible
sorter. -/
theorem filter_df_with_sorted {sorter : SortColumn → List Row → List Row}
    (hs : sort_values_ok sorter) (df : List Row) (am ax pm nm : ℚ)
    (s : SortColumn) (e1 e2 : Bool) :
    List.Sorted (sort_rel s) (Analysis.filter_df_with sorter df am ax pm nm s e1 e2) :=
  (hs s _).2

/-- Two sorted permutations of each other whose sort keys are pairwise
distinct are equal: the order of a sorted table is unique exactly when no two
rows tie on the sort column. -/
theorem eq_of_perm_of_sorted_of_distinct_keys {s : SortColumn} :
    ∀ {l1 l2 : List Row}, l1.Perm l2 → List.Sorted (sort_rel s) l1 →
      List.Sorted (sort_rel s) l2 →
      List.Pairwise (fun a b => get_column a s ≠ get_column b s) l2 →
      l1 = l2 := by
  intro l1
  induction l1 with
  | nil =>
    intro l2 hp _ _ _
    exact hp.nil_eq
  | cons a t1 ih =>
    intro l2 hp h1 h2 hd
    rcases l2 with _ | ⟨b, t2⟩
    · exact absurd hp.eq_nil (by simp)
    · have hab : a = b := by
        by_contra hne
        have ha2 : a ∈ b :: t2 := hp.mem_iff.mp (List.mem_cons_self a t1)
        have hat2 : a ∈ t2 := by
          rcases List.mem_cons.mp ha2 with h | h
          · exact absurd h hne
          · exact h
        have hb1 : b ∈ a :: t1 := hp.mem_iff.mpr (List.mem_cons_self b t2)
        have hbt1 : b ∈ t1 := by
          rcases List.mem_cons.mp hb1 with h | h
          · exact absurd h.symm hne
          · exact h
        have hr1 : sort_rel s a b := List.rel_of_sorted_cons h1 b hbt1
        have hr2 : sort_rel s b a := List.rel_of_sorted_cons h2 a hat2
        have hkey : get_column b s = get_column a s := key_le_antisymm hr2 hr1
        exact (List.pairwise_cons.mp hd).1 a hat2 hkey
      subst hab
      have hpt : t1.Perm t2 := hp.cons_inv
      rw [ih hpt h1.of_cons h2.of_cons (List.pairwise_cons.mp hd).2]

/-- Counterexample for C7 as stated: `sort_values(ascending=False)` only
guarantees a sorted permutation (numpy's default quicksort is not stable), and
under an admissible tie-permuting sort implementation, filtering the
already-filtered two-row table `[row_tie_a, row_tie_b]` — whose sort keys tie
— returns the tied rows in the other order: not the same table, so the
claimed row-order idempotence fails at a concrete input. -/
theorem filter_df_not_order_idempotent :
    sort_values_ok tie_swap_sort ∧
    ¬ (Analysis.filter_df_with tie_swap_sort
        (Analysis.filter_df_with tie_swap_sort [row_tie_a, row_tie_b] 0 10 1000 0
          SortColumn.volume_totale false false)
        0 10 1000 0 SortColumn.volume_totale false false =
      Analysis.filter_df_with tie_swap_sort [row_tie_a, row_tie_b] 0 10 1000 0
        SortColumn.volume_totale false false) :=
  ⟨tie_swap_sort_ok, by decide⟩

/--
C7 (amended): for every table, every fixed criteria and every sort
implementation meeting the `sort_values` contract (a sorted permutation —
tie order is implementation-defined), re-filtering the filtered table with
the same criteria removes no row: the result is a permutation of the
once-filtered table (same rows, sorted again by the sort field), and it is
the same table — same rows in the same order — whenever the filtered rows
have pairwise distinct sort-key values.  The first conjunct records that the
modelled `filter_df` is `filter_df_with` at the stable representative sort.
-/
theorem filter_df_idempotent_up_to_ties
    (sorter : SortColumn → List Row → List Row) (hs : sort_values_ok sorter)
    (df : List Row)
    (anni_scadenza_min anni_scadenza_max prezzo_max ncontratti_min : ℚ)
    (sort_by : SortColumn) (escludi_BTP escludi_XS : Bool) :
    Analysis.filter_df df anni_scadenza_min anni_scadenza_max prezzo_max ncontratti_min
        sort_by escludi_BTP escludi_XS =
      Analysis.filter_df_with (fun s l => sort_rows s l) df anni_scadenza_min
        anni_scadenza_max prezzo_max ncontratti_min sort_by escludi_BTP escludi_XS ∧
    (Analysis.filter_df_with sorter
        (Analysis.filter_df_with sorter df anni_scadenza_min anni_scadenza_max prezzo_max
          ncontratti_min sort_by escludi_BTP escludi_XS)
        anni_scadenza_min anni_scadenza_max prezzo_max ncontratti_min
        sort_by escludi_BTP escludi_XS).Perm
      (Analysis.filter_df_with sorter df anni_scadenza_min anni_scadenza_max prezzo_max
        ncontratti_min sort_by escludi_BTP escludi_XS) ∧
    (List.Pairwise (fun a b => get_column a sort_by ≠ get_column b sort_by)
        (Analysis.filter_df_with sorter df anni_scadenza_min anni_scadenza_max prezzo_max
          ncontratti_min sort_by escludi_BTP escludi_XS) →
      Analysis.filter_df_with sorter
          (Analysis.filter_df_with sorter df anni_scadenza_min anni_scadenza_max prezzo_max
            ncontratti_min sort_by escludi_BTP escludi_XS)
          anni_scadenza_min anni_scadenza_max prezzo_max ncontratti_min
          sort_by escludi_BTP escludi_XS =
        Analysis.filter_df_with sorter df anni_scadenza_min anni_scadenza_max prezzo_max
          ncontratti_min sort_by escludi_BTP escludi_XS) := by
  set X := Analysis.filter_df_with sorter df anni_scadenza_min anni_scadenza_max prezzo_max
    ncontratti_min sort_by escludi_BTP escludi_XS with hX
  have hmask : ∀ r ∈ X, Analysis.row_mask anni_scadenza_min anni_scadenza_max prezzo_max
      ncontratti_min r = true :=
    fun r hr => (mem_filter_df_with hs hr).1
  have hit : escludi_BTP = true →
      ∀ r ∈ X, (! starts_with r.isin Analysis.it_isin_start) = true :=
    fun he r hr => (mem_filter_df_with hs hr).2.1 he
  have hxs : escludi_XS = true →
      ∀ r ∈ X, (! starts_with r.isin Analysis.xs_isin_start) = true :=
    fun he r hr => (mem_filter_df_with hs hr).2.2 he
  have happ : Analysis.filter_df_with sorter X anni_scadenza_min anni_scadenza_max prezzo_max
      ncontratti_min sort_by escludi_BTP escludi_XS = sorter sort_by X :=
    filter_df_with_filters_nothing hmask hit hxs
  have hXsorted : List.Sorted (sort_rel sort_by) X :=
    filter_df_with_sorted hs df anni_scadenza_min anni_scadenza_max prezzo_max
      ncontratti_min sort_by escludi_BTP escludi_XS
  refine ⟨rfl, ?_, ?_⟩
  · rw [happ]
    exact (hs sort_by X).1
  · intro hdist
    rw [happ]
    exact eq_of_perm_of_sorted_of_distinct_keys (hs sort_by X).1 (hs sort_by X).2
      hXsorted hdist

/-- Witness for C7 (amended) at the stable representative sorter and a
concrete two-row table with distinct sort keys. -/
theorem filter_df_idempotent_up_to_ties_witness :
    Analysis.filter_df [row_tie_a, row_full] 0 10 1000 0
        SortColumn.volume_totale false false =
      Analysis.filter_df_with (fun s l => sort_rows s l) [row_tie_a, row_full] 0 10 1000 0
        SortColumn.volume_totale false false ∧
    (Analysis.filter_df_with (fun s l => sort_rows s l)
        (Analysis.filter_df_with (fun s l => sort_rows s l) [row_tie_a, row_full] 0 10 1000 0
          SortColumn.volume_totale false false)
        0 10 1000 0 SortColumn.volume_totale false false).Perm
      (Analysis.filter_df_with (fun s l => sort_rows s l) [row_tie_a, row_full] 0 10 1000 0
        SortColumn.volume_totale false false) ∧
    (List.Pairwise (fun a b => get_column a SortColumn.volume_totale ≠
        get_column b SortColumn.volume_totale)
        (Analysis.filter_df_with (fun s l => sort_rows s l) [row_tie_a, row_full] 0 10 1000 0
          SortColumn.volume_totale false false) →
      Analysis.filter_df_with (fun s l => sort_rows s l)
          (Analysis.filter_df_with (fun s l => sort_rows s l) [row_tie_a, row_full] 0 10 1000 0
            SortColumn.volume_totale false false)
          0 10 1000 0 SortColumn.volume_totale false false =
        Analysis.filter_df_with (fun s l => sort_rows s l) [row_tie_a, row_full] 0 10 1000 0
          SortColumn.volume_totale false false) :=
  filter_df_idempotent_up_to_ties (fun s l => sort_rows s l) sort_rows_ok
    [row_tie_a, row_full] 0 10 1000 0 SortColumn.volume_totale false false

/--
C8: locale number normalization as performed on every extracted field value
in `extract_single_ISIN` removes the thousands dots and turns the decimal
comma into a decimal point: `"1.234,56"` becomes `"1234.56"` and `"12,5"`
becomes `"12.5"`; the third conjunct runs the whole Field Extractor on a page
fragment carrying `"1.234,56"` in a right-aligned span.
-/
theorem normalize_number_locale :
    normalize_number sample_locale_1 = target_locale_1 ∧
    normalize_number sample_locale_2 = target_locale_2 ∧
    Scraping.extract_field html_price_span Scraping.kw_prezzo_ufficiale =
      some target_locale_1 :=
  ⟨rfl, rfl, rfl⟩

/--
C9: for every label and HTML document, if the label does not occur the Field
Extractor returns `none`, and if the label occurs at some position but no
right-aligned-text span follows it before document end it likewise returns
`none` rather than raising.
-/
theorem extract_value_keyword_not_found (keyword html_text : List Char) :
    (py_find html_text keyword 0 = none →
      Scraping.extract_value_after_keyword keyword html_text = none) ∧
    (∀ i : ℕ, py_find html_text keyword 0 = some i →
      py_find html_text Scraping.span_open_tag i = none →
      Scraping.extract_value_after_keyword keyword html_text = none) := by
  constructor
  · intro h
    unfold Scraping.extract_value_after_keyword
    rw [h]
  · intro i hi hspan
    unfold Scraping.extract_value_after_keyword
    rw [hi]
    show (match py_find html_text Scraping.span_open_tag i with
      | none => none
      | some span_start =>
        some (py_strip (py_slice html_text (span_start + Scraping.span_open_tag.length)
          (match py_find html_text Scraping.span_close_tag span_start with
            | none => -1
            | some e => (e : ℤ))))) = none
    rw [hspan]

/-- Witness for C9: on the document `html_label_no_span` the label `Scadenza`
occurs (at index 0) with no span after it, and the label `Numero Contratti`
does not occur; both extractions return `none`. -/
theorem extract_value_keyword_not_found_witness :
    Scraping.extract_value_after_keyword Scraping.kw_scadenza html_label_no_span = none ∧
    Scraping.extract_value_after_keyword Scraping.kw_numero_contratti html_label_no_span = none :=
  ⟨(extract_value_keyword_not_found Scraping.kw_scadenza html_label_no_span).2 0 rfl rfl,
   (extract_value_keyword_not_found Scraping.kw_numero_contratti html_label_no_span).1 rfl⟩

/--
C10: the maturity correction of `improve_data` (the first conjunct ties the
table-level function to the per-cell rule) adds exactly 100 to a negative
`anni_scadenza` and leaves non-negative (and missing) values unchanged.
-/
theorem improve_data_maturity_correction (df : List Row) (v : ℚ) :
    Analysis.improve_data df =
      (Analysis.dedup_first [] df).map
        (fun r => { r with anni_scadenza := Analysis.improve_years r.anni_scadenza }) ∧
    (v < 0 → Analysis.improve_years (some v) = some (v + 100)) ∧
    (0 ≤ v → Analysis.improve_years (some v) = some v) ∧
    Analysis.improve_years none = none := by
  refine ⟨rfl, ?_, ?_, rfl⟩
  · intro h
    show (if v < 0 then some (v + 100) else some v) = some (v + 100)
    rw [if_pos h]
  · intro h
    show (if v < 0 then some (v + 100) else some v) = some v
    rw [if_neg (not_lt.mpr h)]

/-- Witness for C10: a raw `anni_scadenza` of `-3.2` becomes `96.8`. -/
theorem improve_data_maturity_correction_witness :
    Analysis.improve_years (some ((-32) / 10 : ℚ)) = some ((968) / 10 : ℚ) := by
  have h := (improve_data_maturity_correction [] ((-32) / 10)).2.1 (by norm_num)
  rw [h]
  norm_num
